import Mathlib

/-! The `_hawkey.Sack` binding (`src/python/sack-py.c`)

A shallow embedding of the C functions of `sack-py.c` that implement the Python
type `_hawkey.Sack`, and theorems about them.

Conventions of the embedding:

* a `PyObject *` argument supplied by a caller is a `PyValue` (or a `PyObj` where the
  code tests for a sack object); a `NULL` pointer is `none`;
* a function that returns `PyObject *` (or an `int` status) returns a `PyResult`:
  `ok v`, `raise e msg` when this file called `PyErr_SetString`/`PyErr_Format` before
  returning `NULL`/`-1`, `propagate e` when it returned the failure of a callee with the
  callee's exception `e` left pending, and `abort` when `assert(0)` is reached;
* the hawkey library and the CPython calls whose code is not in this file are the
  fields of `Lib`; the process-wide hawkey error code (`hy_get_errno()`) and the
  sequence of library calls made so far are the `World`, passed explicitly;
* constants of hawkey headers (`HY_E_IO`, `HY_ICASE`, ...) are the fields of `HyConsts`;
* `long` is `LONG_BIT` bits wide, `int` (and so libsolv's `Id`) 32 bits.
* a string handed to the library through a `char *` is the C string `cstr s`, the
  characters of the Python string before its first NUL character.
-/

namespace Hawkey

/-! ## Python values, exceptions, results -/

/-- The libsolv `Id` type, a C `int`; values are kept in the 32-bit range by `toCInt`. -/
abbrev Id := Int

/-- A non-NULL `HySack` pointer. -/
abbrev HySack := Nat

/-- A non-NULL `HyRepo` pointer. -/
abbrev HyRepo := Nat

/-- A non-NULL `HyPackage` pointer. -/
abbrev HyPackage := Nat

/-- Python objects a caller may pass: `None`, a bool, an integer of any magnitude, a
string (its characters, a NUL character possibly among them), a class object, a
number-like object that is not an integer (`pyNumber`: a float when `isFloat`, else an
instance whose class defines `__int__`; `toInt` is what its integer conversion yields,
`none` when that conversion raises), or an object of any other kind, which has no
integer conversion. -/
inductive PyValue
  | pyNone
  | pyBool (b : Bool)
  | pyInt (n : Int)
  | pyStr (s : String)
  | pyType (name : String)
  | pyNumber (isFloat : Bool) (toInt : Option Int)
  | pyObject (tag : Nat)
deriving DecidableEq, Repr

/-- The exception classes that occur: the built-in ones used by this file or by the
CPython calls it makes, hawkey's own `HyExc_Arch` and `HyExc_Runtime`, and any other
class (`other`) that a Python-level constructor may raise. -/
inductive PyExc
  | PyExc_TypeError
  | PyExc_IOError
  | PyExc_OverflowError
  | PyExc_SystemError
  | HyExc_Arch
  | HyExc_Runtime
  | other (tag : Nat)
deriving DecidableEq, Repr

/-- Outcome of a binding function. -/
inductive PyResult (α : Type)
  | ok (v : α)
  | raise (e : PyExc) (msg : String)
  | propagate (e : PyExc)
  | abort
deriving DecidableEq, Repr

/-- The C struct `_SackObject` (without the object header). -/
structure SackObject where
  sack : Option HySack
  custom_package_class : Option PyValue
  custom_package_val : Option PyValue
deriving DecidableEq, Repr

/-- A `PyObject *` that is tested with `sackObject_Check`. -/
inductive PyObj
  | sackObject (self : SackObject)
  | value (v : PyValue)
deriving DecidableEq, Repr

/-- The argument tuples `new_package` builds with `Py_BuildValue`:
`"(Oi)O"` gives `((sack, id), val)` and `"((Oi))"` gives `((sack, id),)`. -/
inductive ArgList
  | pair_val (sack : SackObject) (id : Id) (val : PyValue)
  | pair (sack : SackObject) (id : Id)
deriving DecidableEq, Repr

/-- The callable `new_package` hands to `PyObject_CallObject`. -/
inductive Callee
  | custom (cls : PyValue)
  | package_Type
deriving DecidableEq, Repr

/-- A call into the hawkey library or the interpreter, with its arguments. -/
inductive Call
  | hy_sack_create (cachedir arch : Option String)
  | PyObject_CallObject (callee : Callee) (arglist : ArgList)
  | sack_knows (sack : Option HySack) (name : String) (flags : Nat)
  | hy_sack_add_cmdline_package (sack : Option HySack) (fn : String)
  | hy_package_free (pkg : HyPackage)
  | hy_sack_repo_enabled (sack : Option HySack) (reponame : String) (enabled : Int)
  | hy_sack_load_system_repo (sack : Option HySack) (repo : Option HyRepo) (flags : Nat)
  | hy_sack_load_yum_repo (sack : Option HySack) (repo : Option HyRepo) (flags : Nat)
deriving DecidableEq, Repr

/-- The state outside the sack object: hawkey's process-wide error code, read by
`hy_get_errno()`, and the library calls made so far, oldest first. -/
structure World where
  hy_errno : Int
  calls : List Call
deriving DecidableEq, Repr

/-- The constants of hawkey's headers that `sack-py.c` uses; the headers are not part of
the file. -/
structure HyConsts where
  HY_E_IO : Int
  HY_E_ARCH : Int
  HY_ICASE : Nat
  HY_NAME_ONLY : Nat
  HY_BUILD_CACHE : Nat
  HY_LOAD_FILELISTS : Nat
  HY_LOAD_PRESTO : Nat

/-- The functions `sack-py.c` calls whose code is elsewhere. A function that may set the
library's error code takes the code before the call and returns, with its result, the
code after it. `PyObject_CallObject` gives the constructed object or the exception the
constructor raised. -/
structure Lib where
  hy_sack_create : Int → Option String → Option String → Option HySack × Int
  PyObject_CallObject : Callee → ArgList → Except PyExc PyValue
  sack_knows : Option HySack → String → Nat → Int
  hy_sack_add_cmdline_package : Int → Option HySack → String → Option HyPackage × Int
  package_id : HyPackage → Id
  hy_sack_repo_enabled : Int → Option HySack → String → Int → Int × Int
  hy_sack_load_system_repo : Int → Option HySack → Option HyRepo → Nat → Int × Int
  hy_sack_load_yum_repo : Int → Option HySack → Option HyRepo → Nat → Int × Int
  repo_converter : PyValue → Except PyExc HyRepo

/-- Record a library call and the error code it left. -/
def World.after (w : World) (c : Call) (errno : Int) : World :=
  { hy_errno := errno, calls := w.calls ++ [c] }

/-! ## C and CPython primitives -/

/-- Conversion of a `long` to a 32-bit `int` (`Id id = PyInt_AsLong(...)`): the value is
reduced modulo `2^32` into `[-2^31, 2^31)`. -/
def toCInt (x : Int) : Int := (x + 2 ^ 31) % 2 ^ 32 - 2 ^ 31

/-- The value `PyInt_AsLong` returns: the integer itself, or the integer a number-like
object converts to, when it fits a `long` of `LONG_BIT` bits, and `-1` (with an exception
set) when it does not, when the conversion raises, or when the object has no integer
conversion. -/
def PyInt_AsLong (LONG_BIT : Nat) : PyValue → Int
  | .pyInt n => if -(2 ^ (LONG_BIT - 1)) ≤ n ∧ n < 2 ^ (LONG_BIT - 1) then n else -1
  | .pyBool b => if b then 1 else 0
  | .pyNumber _ (some n) =>
    if -(2 ^ (LONG_BIT - 1)) ≤ n ∧ n < 2 ^ (LONG_BIT - 1) then n else -1
  | _ => -1

/-- The NUL character, which ends a C string. -/
def NUL : Char := Char.ofNat 0

/-- Whether a Python string has an embedded NUL character. -/
def hasNul (s : String) : Bool := s.data.any (fun c => c == NUL)

/-- Whether the object is a class object. -/
def PyType_Check : PyValue → Bool
  | .pyType _ => true
  | _ => false

/-- Format unit `s` of `PyArg_ParseTupleAndKeywords`: a string without an embedded NUL
character; any other object, and a string with an embedded NUL, is a `TypeError`. -/
def conv_s : PyValue → Except PyExc String
  | .pyStr s => if hasNul s then .error .PyExc_TypeError else .ok s
  | _ => .error .PyExc_TypeError

/-- Format unit `i` of `PyArg_ParseTupleAndKeywords`: a Python integer that fits a C
`int`; a float is refused, an instance with `__int__` is converted first. -/
def conv_i : PyValue → Except PyExc Int
  | .pyInt n =>
    if -(2 ^ 31) ≤ n ∧ n < 2 ^ 31 then .ok n else .error .PyExc_OverflowError
  | .pyBool b => .ok (if b then 1 else 0)
  | .pyNumber false (some n) =>
    if -(2 ^ 31) ≤ n ∧ n < 2 ^ 31 then .ok n else .error .PyExc_OverflowError
  | _ => .error .PyExc_TypeError

/-- An optional argument (after `|` in the format): when the caller omits it the C
variable keeps its initial value. -/
def parseOpt {α : Type} (conv : PyValue → Except PyExc α) (init : α) :
    Option PyValue → Except PyExc α
  | none => .ok init
  | some v => conv v

/-- A required argument: omitting it is a `TypeError`. -/
def parseReq {α : Type} (conv : PyValue → Except PyExc α) :
    Option PyValue → Except PyExc α
  | none => .error .PyExc_TypeError
  | some v => conv v

/-! ## `new_package`, `sackFromPyObject`, `sack_converter` -/

/-- The function `new_package` (lines 26-51). `Py_BuildValue` returns `NULL`, with
`SystemError` set, when the object given for an `O` unit is `NULL`. -/
def new_package (L : Lib) (sack : PyObj) (id : Id) (w : World) : PyResult PyValue × World :=
  match sack with
  | .value _ => (.raise .PyExc_TypeError "Expected a _hawkey.Sack object.", w)
  | .sackObject self =>
    let arglist : Option ArgList :=
      if self.custom_package_class.isSome || self.custom_package_val.isSome then
        match self.custom_package_val with
        | some val => some (.pair_val self id val)
        | none => none
      else
        some (.pair self id)
    match arglist with
    | none => (.propagate .PyExc_SystemError, w)
    | some arglist =>
      let callee : Callee :=
        match self.custom_package_class with
        | some cls => .custom cls
        | none => .package_Type
      let w1 := w.after (.PyObject_CallObject callee arglist) w.hy_errno
      match L.PyObject_CallObject callee arglist with
      | .ok package => (.ok package, w1)
      | .error e => (.propagate e, w1)

/-- The function `sackFromPyObject` followed by `sack_converter` (lines 53-71): the
`HySack` of a sack object. A sack object whose `sack` is `NULL` makes the converter fail
with no exception set, which the interpreter reports as `SystemError`. -/
def sack_converter : PyObj → Except PyExc HySack
  | .value _ => .error .PyExc_TypeError
  | .sackObject self =>
    match self.sack with
    | some s => .ok s
    | none => .error .PyExc_SystemError

/-! ## `repo_enabled`, `sack_new`, `sack_init` -/

/-- The object `sack_new` allocates (lines 94-105). -/
def sack_new : SackObject :=
  { sack := none, custom_package_class := none, custom_package_val := none }

/-- Keyword arguments of the constructor; `none` is an omitted argument. -/
structure SackInitArgs where
  cachedir : Option PyValue
  arch : Option PyValue
  pkgcls : Option PyValue
  pkginitval : Option PyValue
deriving DecidableEq, Repr

/-- The function `sack_init` (lines 107-150), format `"|ssOO"`; `ok ()` is the return
value `0`, everything else is `-1` (or the failed assertion). -/
def sack_init (K : HyConsts) (L : Lib) (self : SackObject) (a : SackInitArgs) (w : World) :
    PyResult Unit × SackObject × World :=
  match parseOpt (fun v => (conv_s v).map some) none a.cachedir with
  | .error e => (.propagate e, self, w)
  | .ok cachedir =>
    match parseOpt (fun v => (conv_s v).map some) none a.arch with
    | .error e => (.propagate e, self, w)
    | .ok arch =>
      let r := L.hy_sack_create w.hy_errno cachedir arch
      let w1 := w.after (.hy_sack_create cachedir arch) r.2
      let self1 := { self with sack := r.1 }
      match r.1 with
      | none =>
        if w1.hy_errno = K.HY_E_IO then
          (.raise .PyExc_IOError "Failed creating working files for the Sack.", self1, w1)
        else if w1.hy_errno = K.HY_E_ARCH then
          (.raise .HyExc_Arch "Unrecognized arch for the sack.", self1, w1)
        else
          (.abort, self1, w1)
      | some _ =>
        let checked : Option SackObject :=
          match a.pkgcls with
          | some custom_class =>
            if custom_class ≠ .pyNone then
              if !PyType_Check custom_class then none
              else some { self1 with custom_package_class := some custom_class }
            else some self1
          | none => some self1
        match checked with
        | none => (.raise .PyExc_TypeError "Expected a class object.", self1, w1)
        | some self2 =>
          let self3 :=
            match a.pkginitval with
            | some custom_val =>
              if custom_val ≠ .pyNone then { self2 with custom_package_val := some custom_val }
              else self2
            | none => self2
          (.ok (), self3, w1)

/-! ## Object methods -/

/-- Arguments of `_knows`. -/
structure KnowsArgs where
  sack : Option PyObj
  name : Option PyValue
  name_only : Option PyValue
  icase : Option PyValue
deriving DecidableEq, Repr

/-- The flag word `_knows` builds (lines 207-211). -/
def knows_flags (K : HyConsts) (name_only icase : Int) : Nat :=
  let flags := 0
  let flags := if name_only ≠ 0 then flags ||| K.HY_NAME_ONLY else flags
  let flags := if icase ≠ 0 then flags ||| K.HY_ICASE else flags
  flags

/-- The function `_knows` (lines 195-213), format `"O&s|ii"`. -/
def _knows (K : HyConsts) (L : Lib) (a : KnowsArgs) (w : World) : PyResult PyValue × World :=
  let parsed : Except PyExc (HySack × String × Int × Int) := do
    let sack ← match a.sack with
      | none => .error .PyExc_TypeError
      | some o => sack_converter o
    let name ← parseReq conv_s a.name
    let name_only ← parseOpt conv_i 0 a.name_only
    let icase ← parseOpt conv_i 0 a.icase
    pure (sack, name, name_only, icase)
  match parsed with
  | .error e => (.propagate e, w)
  | .ok (sack, name, name_only, icase) =>
    let flags := knows_flags K name_only icase
    (.ok (.pyInt (L.sack_knows (some sack) name flags)),
      w.after (.sack_knows (some sack) name flags) w.hy_errno)

/-- The method `create_package` (lines 222-231). -/
def create_package (LONG_BIT : Nat) (L : Lib) (self : SackObject) (solvable_id : PyValue)
    (w : World) : PyResult PyValue × World :=
  let id : Id := toCInt (PyInt_AsLong LONG_BIT solvable_id)
  if id ≤ 0 then
    (.raise .PyExc_TypeError "Expected a positive integer.", w)
  else
    new_package L (.sackObject self) id w

/-- Keyword arguments of the two loaders. -/
structure LoadArgs where
  repo : Option PyValue
  build_cache : Option PyValue
  load_filelists : Option PyValue
  load_presto : Option PyValue
deriving DecidableEq, Repr

/-- The flag word `load_system_repo` builds (lines 307-309). -/
def system_repo_flags (K : HyConsts) (build_cache : Int) : Nat :=
  let flags := 0
  let flags := if build_cache ≠ 0 then flags ||| K.HY_BUILD_CACHE else flags
  flags

/-- The method `load_system_repo` (lines 292-317), format `"|O&iii"`. -/
def load_system_repo (K : HyConsts) (L : Lib) (self : SackObject) (a : LoadArgs) (w : World) :
    PyResult PyValue × World :=
  let parsed : Except PyExc (Option HyRepo × Int × Int × Int) := do
    let crepo ← parseOpt (fun v => (L.repo_converter v).map some) none a.repo
    let build_cache ← parseOpt conv_i 0 a.build_cache
    let unused_1 ← parseOpt conv_i 0 a.load_filelists
    let unused_2 ← parseOpt conv_i 0 a.load_presto
    pure (crepo, build_cache, unused_1, unused_2)
  match parsed with
  | .error e => (.propagate e, w)
  | .ok (crepo, build_cache, _, _) =>
    let flags := system_repo_flags K build_cache
    let r := L.hy_sack_load_system_repo w.hy_errno self.sack crepo flags
    let w1 := w.after (.hy_sack_load_system_repo self.sack crepo flags) r.2
    (if r.1 = 0 then .ok .pyNone
      else .raise .PyExc_IOError "load_system_repo() failed.", w1)

/-- The flag word `load_yum_repo` builds (lines 332-339). -/
def yum_repo_flags (K : HyConsts) (build_cache load_filelists load_presto : Int) : Nat :=
  let flags := 0
  let flags := if build_cache ≠ 0 then flags ||| K.HY_BUILD_CACHE else flags
  let flags := if load_filelists ≠ 0 then flags ||| K.HY_LOAD_FILELISTS else flags
  let flags := if load_presto ≠ 0 then flags ||| K.HY_LOAD_PRESTO else flags
  flags

/-- The method `load_yum_repo` (lines 319-351), format `"O&|iii"`. -/
def load_yum_repo (K : HyConsts) (L : Lib) (self : SackObject) (a : LoadArgs) (w : World) :
    PyResult PyValue × World :=
  let parsed : Except PyExc (Option HyRepo × Int × Int × Int) := do
    let crepo ← parseReq (fun v => (L.repo_converter v).map some) a.repo
    let build_cache ← parseOpt conv_i 0 a.build_cache
    let load_filelists ← parseOpt conv_i 0 a.load_filelists
    let load_presto ← parseOpt conv_i 0 a.load_presto
    pure (crepo, build_cache, load_filelists, load_presto)
  match parsed with
  | .error e => (.propagate e, w)
  | .ok (crepo, build_cache, load_filelists, load_presto) =>
    let flags := yum_repo_flags K build_cache load_filelists load_presto
    let r := L.hy_sack_load_yum_repo w.hy_errno self.sack crepo flags
    let w1 := w.after (.hy_sack_load_yum_repo self.sack crepo flags) r.2
    let ret : Int := if r.1 ≠ 0 then w1.hy_errno else 0
    (if ret = 0 then .ok .pyNone
      else if ret = K.HY_E_IO then .raise .PyExc_IOError "Can not read repomd file."
      else .raise .HyExc_Runtime ("load_yum_repo() failed: " ++ toString ret ++ "."), w1)

/-! ## A sample library, for evaluating the functions on concrete inputs -/

/-- Sample values for the header constants, pairwise distinct single bits for the flags. -/
def sampleConsts : HyConsts :=
  { HY_E_IO := 4, HY_E_ARCH := 7, HY_ICASE := 1, HY_NAME_ONLY := 65536,
    HY_BUILD_CACHE := 1, HY_LOAD_FILELISTS := 2, HY_LOAD_PRESTO := 4 }

/-- A sample library: sack creation rejects the architecture `"bogus"` with `HY_E_ARCH`,
constructors return an object numbered by the package id, the matcher knows `"foo"`,
`"ok.rpm"` loads as package `5`, and repository loads succeed. -/
def sampleLib : Lib :=
  { hy_sack_create := fun errno _ arch =>
      if arch = some "bogus" then (none, 7) else (some 1, errno)
    PyObject_CallObject := fun _ arglist =>
      match arglist with
      | .pair_val _ id _ => .ok (.pyObject id.toNat)
      | .pair _ id => .ok (.pyObject id.toNat)
    sack_knows := fun _ name _ => if name = "foo" then 1 else 0
    hy_sack_add_cmdline_package := fun errno _ fn =>
      if fn = "ok.rpm" then (some 5, errno) else (none, errno)
    package_id := fun cpkg => (cpkg : Int)
    hy_sack_repo_enabled := fun errno _ _ _ => (0, errno)
    hy_sack_load_system_repo := fun errno _ _ _ => (0, errno)
    hy_sack_load_yum_repo := fun errno _ _ _ => (0, errno)
    repo_converter := fun v =>
      match v with
      | .pyObject n => .ok n
      | _ => .error .PyExc_TypeError }

/-- The initial world: no error code, no library call made. -/
def World.init : World := { hy_errno := 0, calls := [] }

/-- A constructed sack object with the default handle factory. -/
def plainSack : SackObject :=
  { sack := some 1, custom_package_class := none, custom_package_val := none }

/-- A sample library whose sack creation fails and leaves the given error code. -/
def noSackLib (errno : Int) : Lib :=
  { sampleLib with hy_sack_create := fun _ _ _ => (none, errno) }

/-- A sample library whose repository load returns `ret` and leaves error code `errno`. -/
def yumLoadLib (ret errno : Int) : Lib :=
  { sampleLib with hy_sack_load_yum_repo := fun _ _ _ _ => (ret, errno) }

/-- A sample library whose matcher returns `hits` for every name. -/
def knowsLib (hits : Int) : Lib :=
  { sampleLib with sack_knows := fun _ _ _ => hits }

/-- C10: when the three options are accepted as C ints `b`, `f`, `p` (an omitted option
is `0`), `load_yum_repo` calls the loader with the flag word
`(b ≠ 0 ? HY_BUILD_CACHE : 0) | (f ≠ 0 ? HY_LOAD_FILELISTS : 0) | (p ≠ 0 ? HY_LOAD_PRESTO : 0)`,
which is `0` when all three are omitted; `load_system_repo` calls its loader with
`(b ≠ 0 ? HY_BUILD_CACHE : 0)` only, and two system loads that differ only in accepted
`load_filelists` / `load_presto` arguments give the same result and make the same call.
Every Python bool is accepted (`True` as `1`, `False` as `0`). -/
theorem loader_flag_translation (K : HyConsts) (L : Lib) (self : SackObject) (w : World)
    (repo bc fl pr : Option PyValue) (b f p : Int)
    (hb : parseOpt conv_i 0 bc = .ok b) (hf : parseOpt conv_i 0 fl = .ok f)
    (hp : parseOpt conv_i 0 pr = .ok p) :
    (∀ r crepo, L.repo_converter r = .ok crepo →
        (load_yum_repo K L self ⟨some r, bc, fl, pr⟩ w).2.calls =
            w.calls ++ [Call.hy_sack_load_yum_repo self.sack (some crepo)
              (((if b ≠ 0 then K.HY_BUILD_CACHE else 0)
                ||| (if f ≠ 0 then K.HY_LOAD_FILELISTS else 0))
                ||| (if p ≠ 0 then K.HY_LOAD_PRESTO else 0))]
          ∧ (load_yum_repo K L self ⟨some r, none, none, none⟩ w).2.calls =
            w.calls ++ [Call.hy_sack_load_yum_repo self.sack (some crepo) 0])
      ∧ (∀ crepo, parseOpt (fun v => (L.repo_converter v).map some) none repo = .ok crepo →
        (load_system_repo K L self ⟨repo, bc, fl, pr⟩ w).2.calls =
          w.calls ++ [Call.hy_sack_load_system_repo self.sack crepo
            (if b ≠ 0 then K.HY_BUILD_CACHE else 0)])
      ∧ (∀ (fl2 pr2 : Option PyValue) (f2 p2 : Int),
        parseOpt conv_i 0 fl2 = .ok f2 → parseOpt conv_i 0 pr2 = .ok p2 →
        load_system_repo K L self ⟨repo, bc, fl2, pr2⟩ w =
          load_system_repo K L self ⟨repo, bc, fl, pr⟩ w)
      ∧ (∀ t : Bool, parseOpt conv_i 0 (some (.pyBool t)) = .ok (if t then 1 else 0))
      ∧ parseOpt conv_i 0 none = .ok 0 := by
  refine ⟨?_, ?_, ?_, fun t => rfl, rfl⟩
  · intro r crepo hr
    constructor
    · simp only [load_yum_repo, parseReq, hr, hb, hf, hp, Except.map, bind, Except.bind, pure,
        Except.pure, yum_repo_flags, World.after]
      by_cases h1 : b = 0 <;> by_cases h2 : f = 0 <;> by_cases h3 : p = 0 <;>
        simp [h1, h2, h3]
    · simp [load_yum_repo, parseReq, parseOpt, hr, Except.map, bind, Except.bind, pure,
        Except.pure, yum_repo_flags, World.after]
  · intro crepo hr
    simp only [load_system_repo, hr, hb, hf, hp, bind, Except.bind, pure,
      Except.pure, system_repo_flags, World.after]
    by_cases h1 : b = 0 <;> simp [h1]
  · intro fl2 pr2 f2 p2 hf2 hp2
    simp only [load_system_repo, hb, hf, hp, hf2, hp2, bind, Except.bind, pure, Except.pure]
    cases parseOpt (fun v => (L.repo_converter v).map some) none repo <;> rfl

/-- Witness of `loader_flag_translation`: with `build_cache=True`, `load_filelists`
omitted and `load_presto=1`, the repository load passes `HY_BUILD_CACHE | HY_LOAD_PRESTO`
(`5` with the sample constants) and the system load passes `HY_BUILD_CACHE` (`1`). -/
theorem loader_flag_translation_witness :
    (parseOpt conv_i 0 (some (.pyBool true)) = .ok 1
        ∧ parseOpt conv_i 0 none = .ok 0
        ∧ parseOpt conv_i 0 (some (.pyInt 1)) = .ok 1)
      ∧ (load_yum_repo sampleConsts sampleLib plainSack
            ⟨some (.pyObject 3), some (.pyBool true), none, some (.pyInt 1)⟩ World.init).2.calls
          = [Call.hy_sack_load_yum_repo (some 1) (some 3) 5]
      ∧ (load_system_repo sampleConsts sampleLib plainSack
            ⟨some (.pyObject 3), some (.pyBool true), none, some (.pyInt 1)⟩ World.init).2.calls
          = [Call.hy_sack_load_system_repo (some 1) (some 3) 1] := by
  have h := loader_flag_translation sampleConsts sampleLib plainSack World.init
    (some (.pyObject 3)) (some (.pyBool true)) none (some (.pyInt 1)) 1 0 1 rfl rfl rfl
  exact ⟨⟨rfl, rfl, rfl⟩, (h.1 (.pyObject 3) 3 rfl).1, h.2.1 (some 3) rfl⟩

/-- A positive value in the 32-bit range is unchanged by `PyInt_AsLong` followed by the
conversion to `Id`, when `long` has at least 32 bits. -/
theorem toCInt_PyInt_AsLong_of_pos (LONG_BIT : Nat) (h32 : 32 ≤ LONG_BIT) (id : Int)
    (hpos : 0 < id) (hlt : id < 2 ^ 31) :
    toCInt (PyInt_AsLong LONG_BIT (.pyInt id)) = id := by
  have hpow : (2 : Int) ^ 31 ≤ 2 ^ (LONG_BIT - 1) :=
    pow_le_pow_right₀ (by norm_num) (by omega)
  have h1 : -(2 ^ (LONG_BIT - 1)) ≤ id ∧ id < 2 ^ (LONG_BIT - 1) := by
    constructor
    · have : (0 : Int) < 2 ^ (LONG_BIT - 1) := by positivity
      omega
    · omega
  simp only [PyInt_AsLong, h1, and_self, if_true, toCInt]
  norm_num at hlt ⊢
  omega

/-- For a positive id of the 32-bit range `create_package` is `new_package`. -/
theorem create_package_eq_new_package (LONG_BIT : Nat) (h32 : 32 ≤ LONG_BIT) (L : Lib)
    (self : SackObject) (id : Int) (hpos : 0 < id) (hlt : id < 2 ^ 31) (w : World) :
    create_package LONG_BIT L self (.pyInt id) w = new_package L (.sackObject self) id w := by
  simp only [create_package, toCInt_PyInt_AsLong_of_pos LONG_BIT h32 id hpos hlt]
  rw [if_neg (not_le.mpr hpos)]

/-- The `s` unit accepts a string without an embedded NUL character. -/
theorem conv_s_of_hasNul_false (s : String) (h : hasNul s = false) :
    conv_s (.pyStr s) = .ok s := by
  simp [conv_s, h]

/-- C2, counterexample: the architecture string `"bo\0gus"` (a NUL character inside),
with a library that rejects every architecture with `HY_E_ARCH`: `sack_init` fails in
the argument parser with `TypeError`, not with `HyExc_Arch`, and `hy_sack_create` is not
called. -/
theorem sack_init_arch_with_nul :
    (noSackLib 7).hy_sack_create 0 none (some "bo\x00gus") = (none, sampleConsts.HY_E_ARCH)
      ∧ sack_init sampleConsts (noSackLib 7) sack_new
          ⟨none, some (.pyStr "bo\x00gus"), none, none⟩ World.init
        = (.propagate .PyExc_TypeError, sack_new, World.init) := by
  decide

/-- C2, amended: for every architecture string `A` without an embedded NUL character
(and any `cachedir` string without one, any `pkgcls`, `pkginitval`) for which
`hy_sack_create` returns no sack and leaves `HY_E_ARCH`, `sack_init` on a freshly
allocated object returns `-1` with `HyExc_Arch` raised, and the object is still as
`sack_new` made it: `sack`, `custom_package_class` and `custom_package_val` are all
`NULL`. -/
theorem sack_init_unrecognized_arch (K : HyConsts) (L : Lib) (A : String)
    (cachedir : Option String) (pkgcls pkginitval : Option PyValue) (w : World)
    (hA : hasNul A = false) (hC : ∀ c, cachedir = some c → hasNul c = false)
    (hK : K.HY_E_IO ≠ K.HY_E_ARCH)
    (hcreate : L.hy_sack_create w.hy_errno cachedir (some A) = (none, K.HY_E_ARCH)) :
    (sack_init K L sack_new ⟨cachedir.map .pyStr, some (.pyStr A), pkgcls, pkginitval⟩ w).1
        = .raise .HyExc_Arch "Unrecognized arch for the sack."
      ∧ (sack_init K L sack_new
          ⟨cachedir.map .pyStr, some (.pyStr A), pkgcls, pkginitval⟩ w).2.1 = sack_new
      ∧ (sack_init K L sack_new
          ⟨cachedir.map .pyStr, some (.pyStr A), pkgcls, pkginitval⟩ w).2.1.sack = none
      ∧ (sack_init K L sack_new ⟨cachedir.map .pyStr, some (.pyStr A), pkgcls, pkginitval⟩
          w).2.1.custom_package_class = none
      ∧ (sack_init K L sack_new ⟨cachedir.map .pyStr, some (.pyStr A), pkgcls, pkginitval⟩
          w).2.1.custom_package_val = none
      ∧ (sack_init K L sack_new ⟨cachedir.map .pyStr, some (.pyStr A), pkgcls, pkginitval⟩
          w).2.2.calls = w.calls ++ [Call.hy_sack_create cachedir (some A)] := by
  have hcd : parseOpt (fun v => (conv_s v).map some) none (cachedir.map PyValue.pyStr)
      = .ok cachedir := by
    cases cachedir with
    | none => rfl
    | some c =>
      show (conv_s (.pyStr c)).map some = .ok (some c)
      rw [conv_s_of_hasNul_false c (hC c rfl)]
      rfl
  have hne : ¬ K.HY_E_ARCH = K.HY_E_IO := fun h => hK h.symm
  have h : sack_init K L sack_new
      ⟨cachedir.map .pyStr, some (.pyStr A), pkgcls, pkginitval⟩ w
      = (.raise .HyExc_Arch "Unrecognized arch for the sack.", sack_new,
          w.after (.hy_sack_create cachedir (some A)) K.HY_E_ARCH) := by
    have har : parseOpt (fun v => (conv_s v).map some) none (some (PyValue.pyStr A))
        = .ok (some A) := by
      show (conv_s (.pyStr A)).map some = .ok (some A)
      rw [conv_s_of_hasNul_false A hA]
      rfl
    simp only [sack_init, hcd, har, hcreate, World.after, hne, if_false, if_true, sack_new]
  rw [h]
  exact ⟨rfl, rfl, rfl, rfl, rfl, rfl⟩

/-- Witness of `sack_init_unrecognized_arch`: the sample library rejects `"bogus"`. -/
theorem sack_init_unrecognized_arch_witness :
    (hasNul "bogus" = false ∧ sampleConsts.HY_E_IO ≠ sampleConsts.HY_E_ARCH
        ∧ sampleLib.hy_sack_create 0 none (some "bogus") = (none, sampleConsts.HY_E_ARCH))
      ∧ (sack_init sampleConsts sampleLib sack_new
          ⟨none, some (.pyStr "bogus"), some (.pyType "Package"), some (.pyInt 3)⟩
          World.init).2.1 = sack_new := by
  have h := sack_init_unrecognized_arch sampleConsts sampleLib "bogus" none
    (some (.pyType "Package")) (some (.pyInt 3)) World.init (by decide)
    (fun c hc => by cases hc) (by decide) (by decide)
  exact ⟨⟨by decide, by decide, by decide⟩, h.2.1⟩

/-- C6, counterexample: the underlying repository load returns `1` (failure) and the
error code read afterwards is `0`; `load_yum_repo` returns `None`, that is, success.
With the same return value `1` and error code `4` (`HY_E_IO`) it raises `IOError`, and
with error code `7` it raises `HyExc_Runtime`: the outcome follows the ambient error
code, not the load's return value alone. -/
theorem load_yum_repo_follows_errno :
    ((yumLoadLib 1 0).hy_sack_load_yum_repo 0 (some 1) (some 3) 0).1 = 1
      ∧ (load_yum_repo sampleConsts (yumLoadLib 1 0) plainSack
          ⟨some (.pyObject 3), none, none, none⟩ World.init).1 = .ok .pyNone
      ∧ (load_yum_repo sampleConsts (yumLoadLib 1 4) plainSack
          ⟨some (.pyObject 3), none, none, none⟩ World.init).1
          = .raise .PyExc_IOError "Can not read repomd file."
      ∧ (load_yum_repo sampleConsts (yumLoadLib 1 7) plainSack
          ⟨some (.pyObject 3), none, none, none⟩ World.init).1
          = .raise .HyExc_Runtime "load_yum_repo() failed: 7." := by
  decide

/-- C6, amended: for every repository the converter accepts and all accepted options,
`load_yum_repo` returns `None` whenever the underlying load returned `0`, whatever the
error code before or after the call; when the load returned nonzero and the error code
read afterwards is nonzero, it raises `IOError` (storage error) if that code is
`HY_E_IO` and `HyExc_Runtime` (metadata error) otherwise. -/
theorem load_yum_repo_outcome (K : HyConsts) (L : Lib) (self : SackObject) (w : World)
    (r : PyValue) (bc fl pr : Option PyValue) (crepo : HyRepo) (b f p : Int)
    (hr : L.repo_converter r = .ok crepo)
    (hb : parseOpt conv_i 0 bc = .ok b) (hf : parseOpt conv_i 0 fl = .ok f)
    (hp : parseOpt conv_i 0 pr = .ok p) :
    ((L.hy_sack_load_yum_repo w.hy_errno self.sack (some crepo) (yum_repo_flags K b f p)).1 = 0 →
        (load_yum_repo K L self ⟨some r, bc, fl, pr⟩ w).1 = .ok .pyNone)
      ∧ ((L.hy_sack_load_yum_repo w.hy_errno self.sack (some crepo)
            (yum_repo_flags K b f p)).1 ≠ 0 →
          (L.hy_sack_load_yum_repo w.hy_errno self.sack (some crepo)
            (yum_repo_flags K b f p)).2 ≠ 0 →
          (L.hy_sack_load_yum_repo w.hy_errno self.sack (some crepo)
            (yum_repo_flags K b f p)).2 = K.HY_E_IO →
        (load_yum_repo K L self ⟨some r, bc, fl, pr⟩ w).1
          = .raise .PyExc_IOError "Can not read repomd file.")
      ∧ ((L.hy_sack_load_yum_repo w.hy_errno self.sack (some crepo)
            (yum_repo_flags K b f p)).1 ≠ 0 →
          (L.hy_sack_load_yum_repo w.hy_errno self.sack (some crepo)
            (yum_repo_flags K b f p)).2 ≠ 0 →
          (L.hy_sack_load_yum_repo w.hy_errno self.sack (some crepo)
            (yum_repo_flags K b f p)).2 ≠ K.HY_E_IO →
        (load_yum_repo K L self ⟨some r, bc, fl, pr⟩ w).1
          = .raise .HyExc_Runtime ("load_yum_repo() failed: "
              ++ toString (L.hy_sack_load_yum_repo w.hy_errno self.sack (some crepo)
                  (yum_repo_flags K b f p)).2 ++ ".")) := by
  have hparse : parseReq (fun v => (L.repo_converter v).map some) (some r)
      = .ok (some crepo) := by
    simp [parseReq, hr, Except.map]
  refine ⟨?_, ?_, ?_⟩
  · intro h0
    simp [load_yum_repo, hparse, hb, hf, hp, bind, Except.bind, pure, Except.pure, h0]
  · intro h1 h2 h3
    have h4 : ¬ K.HY_E_IO = 0 := fun h => h2 (h3.trans h)
    simp [load_yum_repo, hparse, hb, hf, hp, bind, Except.bind, pure, Except.pure, h1,
      World.after, h3, h4]
  · intro h1 h2 h3
    simp [load_yum_repo, hparse, hb, hf, hp, bind, Except.bind, pure, Except.pure, h1,
      World.after, h2, h3]

/-- Witness of `load_yum_repo_outcome`: a load that returns `1` leaving `HY_E_IO`. -/
theorem load_yum_repo_outcome_witness :
    (sampleLib.repo_converter (.pyObject 3) = .ok 3
        ∧ parseOpt conv_i 0 (some (.pyInt 1)) = .ok 1
        ∧ parseOpt conv_i 0 none = .ok 0)
      ∧ (load_yum_repo sampleConsts (yumLoadLib 1 4) plainSack
          ⟨some (.pyObject 3), some (.pyInt 1), none, none⟩ World.init).1
          = .raise .PyExc_IOError "Can not read repomd file." := by
  have h := load_yum_repo_outcome sampleConsts (yumLoadLib 1 4) plainSack World.init
    (.pyObject 3) (some (.pyInt 1)) none none 3 1 0 0 rfl rfl rfl rfl
  exact ⟨⟨rfl, rfl, rfl⟩, h.2.1 (by decide) (by decide) (by decide)⟩

/-- C7, counterexample: when the matcher returns `2`, `_knows` returns the Python
integer `2`, which is neither a boolean object nor `0` or `1`; and two matchers that
both report a hit (`1` and `2`) give different results, so the result carries the
matcher's value and not only whether there was a hit; for a matcher that returns `1` the
result is the Python integer `1` (`PyInt_FromLong`). -/
theorem _knows_returns_matcher_value :
    (_knows sampleConsts (knowsLib 2)
        ⟨some (.sackObject plainSack), some (.pyStr "foo"), none, none⟩ World.init).1
        = .ok (.pyInt 2)
      ∧ (_knows sampleConsts (knowsLib 2)
        ⟨some (.sackObject plainSack), some (.pyStr "foo"), none, none⟩ World.init).1
        ≠ (_knows sampleConsts (knowsLib 1)
          ⟨some (.sackObject plainSack), some (.pyStr "foo"), none, none⟩ World.init).1
      ∧ (∀ t : Bool, (_knows sampleConsts (knowsLib 2)
        ⟨some (.sackObject plainSack), some (.pyStr "foo"), none, none⟩ World.init).1
        ≠ .ok (.pyBool t))
      ∧ (_knows sampleConsts (knowsLib 1)
        ⟨some (.sackObject plainSack), some (.pyStr "foo"), none, none⟩ World.init).1
        = .ok (.pyInt 1) := by
  decide

/-- C7, amended: for a sack object with a sack, every name without an embedded NUL
character (a name with one is refused by the argument parser) and all accepted
`name_only` / `icase` arguments (C ints `a`, `b`; a Python bool is accepted as `1` or
`0`, an omitted argument is `0`), `_knows` makes exactly one call of the matcher, with
the flag word `(a ≠ 0 ? HY_NAME_ONLY : 0) | (b ≠ 0 ? HY_ICASE : 0)`, and returns the
matcher's return value unchanged as a Python integer; that integer is nonzero exactly
when the matcher's return value is. -/
theorem _knows_result (K : HyConsts) (L : Lib) (self : SackObject) (s : HySack) (n : String)
    (name_only icase : Option PyValue) (a b : Int) (w : World)
    (hs : self.sack = some s) (hn : hasNul n = false)
    (ha : parseOpt conv_i 0 name_only = .ok a) (hb : parseOpt conv_i 0 icase = .ok b) :
    _knows K L ⟨some (.sackObject self), some (.pyStr n), name_only, icase⟩ w
        = (.ok (.pyInt (L.sack_knows (some s) n
              ((if a ≠ 0 then K.HY_NAME_ONLY else 0) ||| (if b ≠ 0 then K.HY_ICASE else 0)))),
            { hy_errno := w.hy_errno,
              calls := w.calls ++ [Call.sack_knows (some s) n
                ((if a ≠ 0 then K.HY_NAME_ONLY else 0) ||| (if b ≠ 0 then K.HY_ICASE else 0))] })
      ∧ (∀ t : Bool, parseOpt conv_i 0 (some (.pyBool t)) = .ok (if t then 1 else 0))
      ∧ parseOpt conv_i 0 none = .ok 0 := by
  refine ⟨?_, fun t => rfl, rfl⟩
  have hflags : knows_flags K a b
      = ((if a ≠ 0 then K.HY_NAME_ONLY else 0) ||| (if b ≠ 0 then K.HY_ICASE else 0)) := by
    by_cases h1 : a = 0 <;> by_cases h2 : b = 0 <;> simp [knows_flags, h1, h2]
  simp only [_knows, sack_converter, hs, parseReq, conv_s_of_hasNul_false n hn, ha, hb, bind,
    Except.bind, pure, Except.pure, hflags, World.after]

/-- Witness of `_knows_result`: `name_only=True`, `icase` omitted. -/
theorem _knows_result_witness :
    (plainSack.sack = some 1 ∧ hasNul "foo" = false
        ∧ parseOpt conv_i 0 (some (.pyBool true)) = .ok 1
        ∧ parseOpt conv_i 0 none = .ok 0)
      ∧ _knows sampleConsts sampleLib
          ⟨some (.sackObject plainSack), some (.pyStr "foo"), some (.pyBool true), none⟩
          World.init
        = (.ok (.pyInt 1), { hy_errno := 0, calls := [Call.sack_knows (some 1) "foo" 65536] }) := by
  have h := _knows_result sampleConsts sampleLib plainSack 1 "foo" (some (.pyBool true)) none
    1 0 World.init rfl (by decide) rfl rfl
  exact ⟨⟨rfl, by decide, rfl, rfl⟩, h.1⟩

/-- The function `new_package` uses the library only through `PyObject_CallObject`. -/
theorem new_package_congr (L L2 : Lib) (h : L2.PyObject_CallObject = L.PyObject_CallObject)
    (sack : PyObj) (id : Id) (w : World) :
    new_package L2 sack id w = new_package L sack id w := by
  simp only [new_package, h]

/-- C5, counterexample: the strictly positive integer `2^32` is rejected by
`create_package` with "Expected a positive integer." and no constructor is called,
whatever the width of `long` (its conversion to the 32-bit `Id` is `0`, or it does not
fit a `long` and `PyInt_AsLong` returns `-1`); with a `long` of 64 bits `2^32 + 5`
yields the handle of id `5`. Neither is what `new_package` gives for the same integer. -/
theorem create_package_large_positive_id :
    ((0 : Int) < 4294967296 ∧ toCInt (PyInt_AsLong 64 (.pyInt 4294967296)) = 0)
      ∧ (∀ LONG_BIT : Nat,
        create_package LONG_BIT sampleLib plainSack (.pyInt 4294967296) World.init
          = (.raise .PyExc_TypeError "Expected a positive integer.", World.init))
      ∧ create_package 64 sampleLib plainSack (.pyInt 4294967296) World.init
        ≠ new_package sampleLib (.sackObject plainSack) 4294967296 World.init
      ∧ create_package 64 sampleLib plainSack (.pyInt 4294967301) World.init
        = new_package sampleLib (.sackObject plainSack) 5 World.init
      ∧ create_package 64 sampleLib plainSack (.pyInt 4294967301) World.init
        ≠ new_package sampleLib (.sackObject plainSack) 4294967301 World.init := by
  refine ⟨by decide, ?_, by decide, by decide, by decide⟩
  intro LONG_BIT
  have h : toCInt (PyInt_AsLong LONG_BIT (.pyInt 4294967296)) ≤ 0 := by
    simp only [PyInt_AsLong]
    split <;> decide
  simp only [create_package, h, if_true]

/-- C5, amended: for every sack object, every world and every strictly positive id that
fits the 32-bit `Id` type (`0 < id < 2^31`, `long` at least 32 bits wide),
`create_package` returns exactly what `new_package` returns for that object and that id,
with the same library calls; and the result depends on the library only through
`PyObject_CallObject`: no function that could report a repository's enabled flag or the
excludes is consulted. -/
theorem create_package_delegates (LONG_BIT : Nat) (L : Lib) (self : SackObject) (id : Int)
    (w : World) (h32 : 32 ≤ LONG_BIT) (hpos : 0 < id) (hlt : id < 2 ^ 31) :
    create_package LONG_BIT L self (.pyInt id) w = new_package L (.sackObject self) id w
      ∧ (∀ L2 : Lib, L2.PyObject_CallObject = L.PyObject_CallObject →
        create_package LONG_BIT L2 self (.pyInt id) w
          = create_package LONG_BIT L self (.pyInt id) w) := by
  refine ⟨create_package_eq_new_package LONG_BIT h32 L self id hpos hlt w, ?_⟩
  intro L2 h
  rw [create_package_eq_new_package LONG_BIT h32 L self id hpos hlt w,
    create_package_eq_new_package LONG_BIT h32 L2 self id hpos hlt w]
  exact new_package_congr L L2 h _ _ _

/-- Witness of `create_package_delegates`: id `7`, `long` of 64 bits. -/
theorem create_package_delegates_witness :
    (32 ≤ 64 ∧ (0 : Int) < 7 ∧ (7 : Int) < 2 ^ 31)
      ∧ create_package 64 sampleLib plainSack (.pyInt 7) World.init
        = new_package sampleLib (.sackObject plainSack) 7 World.init :=
  ⟨⟨by decide, by decide, by decide⟩,
    (create_package_delegates 64 sampleLib plainSack 7 World.init (by decide) (by decide)
      (by decide)).1⟩

/-- C1, the code at the failing input (`long` of 64 bits): the non-positive integer
`-4294967295` is converted to the `Id` `1`, so `create_package` does not fail: it calls
the built-in package type with `(sack, 1)` and returns the handle. -/
theorem create_package_wrapped_negative_id :
    ((-4294967295 : Int) ≤ 0 ∧ toCInt (PyInt_AsLong 64 (.pyInt (-4294967295))) = 1)
      ∧ create_package 64 sampleLib plainSack (.pyInt (-4294967295)) World.init
        = (.ok (.pyObject 1),
            { hy_errno := 0,
              calls := [Call.PyObject_CallObject .package_Type (.pair plainSack 1)] }) := by
  decide

/-- For every width of `long` and every integer `id` with `-2^31 ≤ id ≤ 0`,
`create_package` raises `TypeError` ("Expected a positive integer.") and makes no
library call; the same holds for every argument that has no integer conversion (`None`,
a string, a class, an object that is not number-like). -/
theorem create_package_rejects_nonpositive (LONG_BIT : Nat) (L : Lib) (self : SackObject)
    (w : World) :
    (∀ id : Int, -(2 ^ 31) ≤ id → id ≤ 0 →
        create_package LONG_BIT L self (.pyInt id) w
          = (.raise .PyExc_TypeError "Expected a positive integer.", w))
      ∧ (∀ v : PyValue, (∀ n, v ≠ .pyInt n) → (∀ t, v ≠ .pyBool t) →
        (∀ f c, v ≠ .pyNumber f c) →
        create_package LONG_BIT L self v w
          = (.raise .PyExc_TypeError "Expected a positive integer.", w)) := by
  constructor
  · intro id hlo hhi
    have h : toCInt (PyInt_AsLong LONG_BIT (.pyInt id)) ≤ 0 := by
      simp only [PyInt_AsLong]
      split
      · simp only [toCInt]
        norm_num at hlo ⊢
        omega
      · decide
    simp only [create_package, h, if_true]
  · intro v hn ht hf
    have h : PyInt_AsLong LONG_BIT v = -1 := by
      cases v with
      | pyInt n => exact absurd rfl (hn n)
      | pyBool t => exact absurd rfl (ht t)
      | pyNumber f c => exact absurd rfl (hf f c)
      | _ => rfl
    have h2 : toCInt (-1) ≤ 0 := by decide
    simp only [create_package, h, h2, if_true]

/-- Witness of `create_package_rejects_nonpositive`: ids `0` and `-3`, and a string. -/
theorem create_package_rejects_nonpositive_witness :
    create_package 64 sampleLib plainSack (.pyInt 0) World.init
        = (.raise .PyExc_TypeError "Expected a positive integer.", World.init)
      ∧ create_package 64 sampleLib plainSack (.pyInt (-3)) World.init
        = (.raise .PyExc_TypeError "Expected a positive integer.", World.init)
      ∧ create_package 64 sampleLib plainSack (.pyStr "7") World.init
        = (.raise .PyExc_TypeError "Expected a positive integer.", World.init) := by
  have h := create_package_rejects_nonpositive 64 sampleLib plainSack World.init
  exact ⟨h.1 0 (by decide) (by decide), h.1 (-3) (by decide) (by decide),
    h.2 (.pyStr "7") (fun n hn => by cases hn) (fun t hn => by cases hn)
      (fun f c hn => by cases hn)⟩

/-- C4, the code at the failing configuration: `sack_init` with `pkgcls=Package` and no
`pkginitval` records the class and leaves `custom_package_val` `NULL`; `new_package` on
that object then gets `NULL` from `Py_BuildValue("(Oi)O", sack, id, NULL)` and returns
`NULL` (with `SystemError`) without calling the class. -/
theorem new_package_custom_class_without_val :
    (sack_init sampleConsts sampleLib sack_new ⟨none, none, some (.pyType "Package"), none⟩
        World.init).2.1
        = { sack := some 1, custom_package_class := some (.pyType "Package"),
            custom_package_val := none }
      ∧ new_package sampleLib
          (.sackObject { sack := some 1, custom_package_class := some (.pyType "Package"),
                         custom_package_val := none }) 1 World.init
        = (.propagate .PyExc_SystemError, World.init) := by
  decide

/-- What `new_package` calls, by configuration: with an auxiliary value `val` set, the
custom class if there is one and the built-in package type otherwise, with
`((sack, id), val)`; with neither a class nor a value, the built-in package type with
`((sack, id),)`; the constructor's object is returned and its exception passed on. With
a class and no value, no call is made and `SystemError` is passed on. -/
theorem new_package_calls (L : Lib) (s : Option HySack) (id : Id) (w : World) :
    (∀ cls val,
        (new_package L (.sackObject ⟨s, some cls, some val⟩) id w).2.calls
            = w.calls ++ [Call.PyObject_CallObject (.custom cls)
                (.pair_val ⟨s, some cls, some val⟩ id val)]
          ∧ (new_package L (.sackObject ⟨s, some cls, some val⟩) id w).1
            = (match L.PyObject_CallObject (.custom cls)
                  (.pair_val ⟨s, some cls, some val⟩ id val) with
                | .ok package => .ok package
                | .error e => .propagate e))
      ∧ (∀ val,
        (new_package L (.sackObject ⟨s, none, some val⟩) id w).2.calls
            = w.calls ++ [Call.PyObject_CallObject .package_Type
                (.pair_val ⟨s, none, some val⟩ id val)]
          ∧ (new_package L (.sackObject ⟨s, none, some val⟩) id w).1
            = (match L.PyObject_CallObject .package_Type
                  (.pair_val ⟨s, none, some val⟩ id val) with
                | .ok package => .ok package
                | .error e => .propagate e))
      ∧ ((new_package L (.sackObject ⟨s, none, none⟩) id w).2.calls
            = w.calls ++ [Call.PyObject_CallObject .package_Type (.pair ⟨s, none, none⟩ id)]
          ∧ (new_package L (.sackObject ⟨s, none, none⟩) id w).1
            = (match L.PyObject_CallObject .package_Type (.pair ⟨s, none, none⟩ id) with
                | .ok package => .ok package
                | .error e => .propagate e))
      ∧ (∀ cls, new_package L (.sackObject ⟨s, some cls, none⟩) id w
          = (.propagate .PyExc_SystemError, w)) := by
  refine ⟨fun cls val => ?_, fun val => ?_, ?_, fun cls => rfl⟩
  · simp only [new_package, Option.isSome, Bool.or_self, if_true, World.after]
    cases L.PyObject_CallObject (.custom cls) (.pair_val ⟨s, some cls, some val⟩ id val) <;>
      exact ⟨rfl, rfl⟩
  · simp only [new_package, Option.isSome, Bool.or_true, if_true, World.after]
    cases L.PyObject_CallObject .package_Type (.pair_val ⟨s, none, some val⟩ id val) <;>
      exact ⟨rfl, rfl⟩
  · simp only [new_package, Option.isSome, Bool.or_self, Bool.false_eq_true, if_false,
      World.after]
    cases L.PyObject_CallObject .package_Type (.pair ⟨s, none, none⟩ id) <;>
      exact ⟨rfl, rfl⟩

end Hawkey
